import Mathlib

/-!
Verification of the GHCNh hourly-observation curation pipeline of `pyseasters`
(`pyseasters/data_curation/preprocess/ghcnh.py` and
`pyseasters/utils/_logging.py`), shallowly embedded in Lean.

Effectful library calls (file reads, parquet writes, datetime parsing) are
modelled by environment records stating, for each call site, whether the call
succeeds and with which data; pure control flow, the logging buffer, the
per-variable export, the inventory folds and the metadata handling are
translated directly from the source.
-/

namespace Pyseasters

/-! ## Deferred logging buffer (`pyseasters/utils/_logging.py`, `LoggingStack`) -/

/-- A buffered log record: `(level, message template, args)`, as stored by
`LoggingStack._append`.  Args are kept in rendered (string) form. -/
abbrev Msg := String × String × List String

/-- Python class `LoggingStack`: a picklable logging buffer with an owner
`name` and an ordered list of buffered `messages` (source lines 89–131). -/
structure LoggingStack where
  name : String
  messages : List Msg
deriving DecidableEq

/-- Method `LoggingStack._append`: append `(level, message, *args)` to
`messages`. -/
def LoggingStack.append (s : LoggingStack) (level message : String)
    (args : List String) : LoggingStack :=
  { s with messages := s.messages ++ [(level, message, args)] }

/-- The `debug` severity method (dispatched through `__getattr__`). -/
def LoggingStack.debug (s : LoggingStack) (message : String)
    (args : List String) : LoggingStack :=
  s.append "debug" message args

/-- The `info` severity method (dispatched through `__getattr__`). -/
def LoggingStack.info (s : LoggingStack) (message : String)
    (args : List String) : LoggingStack :=
  s.append "info" message args

/-- The `warning` severity method (dispatched through `__getattr__`). -/
def LoggingStack.warning (s : LoggingStack) (message : String)
    (args : List String) : LoggingStack :=
  s.append "warning" message args

/-- The `error` severity method (dispatched through `__getattr__`). -/
def LoggingStack.error (s : LoggingStack) (message : String)
    (args : List String) : LoggingStack :=
  s.append "error" message args

/-- The `critical` severity method (dispatched through `__getattr__`). -/
def LoggingStack.critical (s : LoggingStack) (message : String)
    (args : List String) : LoggingStack :=
  s.append "critical" message args

/-- One record emitted to the real logger by `flush`: the logger method called
(`params[0].lower()`), the owner-tagged message `f"[{self.name}] {params[1]}"`,
and the remaining args `*params[2:]`. -/
structure Emission where
  level : String
  text : String
  args : List String
deriving DecidableEq

/-- The sequence of records `LoggingStack.flush(logger)` sends to `logger`,
in the order sent: the buffer is drained head-first (`pop(0)`), so the
emissions are the buffered messages in append order. -/
def LoggingStack.flushEmits (s : LoggingStack) : List Emission :=
  s.messages.map (fun p => ⟨p.1.toLower, "[" ++ s.name ++ "] " ++ p.2.1, p.2.2⟩)

/-- Method `LoggingStack.picklable`: the `(name, messages)` tuple
representation. -/
def LoggingStack.picklable (s : LoggingStack) : String × List Msg :=
  (s.name, s.messages)

/-- Reconstruction `LoggingStack(*pickled)` from a `picklable()` tuple. -/
def LoggingStack.ofPickle (p : String × List Msg) : LoggingStack :=
  ⟨p.1, p.2⟩

/-- Append a whole sequence of messages through the severity-method path
(each call reduces to `_append`). -/
def LoggingStack.appendAll (s : LoggingStack) (ms : List Msg) : LoggingStack :=
  ms.foldl (fun t m => t.append m.1 m.2.1 m.2.2) s

/-! ## Paths (`_ghcnh_file_by_station`, `_ghcnh_file_by_year`) -/

/-- Source function `_ghcnh_file_by_year`: path of a station-year `parquet`
file, rendered as a string; `root` stands for the configured `paths.ghcnh()`
directory. -/
def ghcnhFileByYear (root stationId : String) (year : Nat) : String :=
  root ++ "/data/by-year/" ++ toString year ++ "/GHCNh_" ++ stationId ++ "_"
    ++ toString year ++ ".parquet"

/-- Source function `_ghcnh_file_by_station`: path of a station `psv` file,
rendered as a string; `root` stands for the configured `paths.ghcnh()`
directory. -/
def ghcnhFileByStation (root stationId : String) : String :=
  root ++ "/data/by-station/GHCNh_" ++ stationId ++ "_por.psv"

/-! ## Variable partitioner (`_export_variables`) -/

/-- A table cell: `some v` for a present value, `none` for a missing (NaN/null)
entry. -/
abbrev Cell := Option String

/-- A row survives `dropna(how="all")` iff some cell of the selected columns
(value column plus attribute columns) is present. -/
def keepRow (r : List Cell) : Bool :=
  r.any (fun c => c.isSome)

/-- Translation of `df[cols].dropna(how="all")`: drop the rows that are empty
across all the selected columns. -/
def dropAllNa (rows : List (List Cell)) : List (List Cell) :=
  rows.filter keepRow

/-- A canonical table, keyed by variable: for each variable the rows of its
selected columns (`[var] + [f"{var}{attr}" for attr in _ATTRIBUTES]`). -/
abbrev Table := List (String × List (List Cell))

/-- Rows of the selected columns of one variable in a table. -/
def tableRows (t : Table) (var : String) : List (List Cell) :=
  match t.find? (fun p => p.1 == var) with
  | some p => p.2
  | none => []

/-- Source function `_export_variables(df, station_id, year, logger)` (lines 40–54):
for each declared variable, select its value and attribute columns, drop rows
empty across all of them, record `var_to_count[var] = len(var_df.index)`, and
write a partition file `paths.ghcnh_file(station_id, year, var)` iff the
remaining frame is non-empty.  Returns the count map and the list of partition
keys written. -/
def exportVariables (vars : List String) (t : Table) (stationId : String)
    (year : Nat) : List (String × Nat) × List (String × Nat × String) :=
  (vars.map (fun v => (v, (dropAllNa (tableRows t v)).length)),
   (vars.filter (fun v => !(dropAllNa (tableRows t v)).isEmpty)).map
     (fun v => (stationId, year, v)))

/-- The per-year inventory fold of both station tasks (source lines 140–142 and
269–271): `if count != 0: inv_by_var[var][str(year)] = count`.  The nested
`var → year → count` dicts are flattened to `(var, str(year)) → count`
entries. -/
def foldNonzero (year : Nat) (counts : List (String × Nat)) :
    List ((String × String) × Nat) :=
  (counts.filter (fun p => p.2 != 0)).map (fun p => ((p.1, toString year), p.2))

/-! ## YearSource task (`_preprocess_single_parquet_station[_year]`, lines 57–146)

Effectful pandas calls are modelled by an environment record: a flag per call
site saying whether the call raises, plus the data it yields on success. -/

/-- Outcome of `pd.to_datetime(df["DATE"])` (source lines 74–85): success, a
`ValueError` answered by the mixed-format fallback parse (which itself
succeeds or raises), or another exception (caught by `except Exception`). -/
inductive DtParse
  | ok
  | valueErrorFallback (fallbackOk : Bool)
  | otherFailure
deriving DecidableEq

/-- Environment of one `parquet` station-year run: which call sites succeed,
and the per-variable content of the cleaned frame when export is reached. -/
structure ParquetYearEnv where
  fileExists : Bool
  readParquetOk : Bool
  dtParse : DtParse
  dropColumnsOk : Bool
  exportRaises : Bool
  table : Table
  excText : String

/-- Abort message of the `parquet` phase handlers (source lines 65–119). -/
def abortParquetMsg : String :=
  "Abort `parquet` preprocessing for (station_id, year) = (%s, %i)."

/-- Source function `_preprocess_single_parquet_station_year` (lines 57–122).
Returns `.error ()` when an exception escapes the function (only possible from
`pd.read_parquet` at line 71, which no `try` guards, and from the mixed-format
fallback parse raising inside the `except ValueError` handler at line 77);
`.ok` carries the updated logger and the returned `var_to_count` dict. -/
def preprocessSingleParquetStationYear (vars : List String) (root stationId : String)
    (year : Nat) (env : ParquetYearEnv) (logger : LoggingStack) :
    Except Unit (LoggingStack × List (String × Nat)) :=
  if !env.fileExists then
    .ok ((logger.error "File %s not found." [ghcnhFileByYear root stationId year]).error
      abortParquetMsg [stationId, toString year], [])
  else if !env.readParquetOk then
    .error ()
  else
    match env.dtParse with
    | .valueErrorFallback false => .error ()
    | .otherFailure =>
      .ok ((logger.error "Problem while parsing datetime: %s" [env.excText]).error
        abortParquetMsg [stationId, toString year], [])
    | _ =>
      if !env.dropColumnsOk then
        .ok ((logger.error "Problem while cleaning columns: %s" [env.excText]).error
          abortParquetMsg [stationId, toString year], [])
      else if env.exportRaises then
        .ok ((logger.error "Problem while exporting variables: %s" [env.excText]).error
          abortParquetMsg [stationId, toString year], [])
      else
        .ok (logger.debug "Variable export completed for (station_id, year) = (%s, %i)."
          [stationId, toString year], (exportVariables vars env.table stationId year).1)

/-- Loop body of `_preprocess_single_parquet_station` (lines 136–142): run each
year in order, folding nonzero counts into the station inventory; an exception
raised by a year run propagates out of the whole task. -/
def parquetStationLoop (vars : List String) (root stationId : String)
    (tasks : List (Nat × ParquetYearEnv)) (logger : LoggingStack)
    (inv : List ((String × String) × Nat)) :
    Except Unit (LoggingStack × List ((String × String) × Nat)) :=
  match tasks with
  | [] => .ok (logger, inv)
  | (year, env) :: rest =>
    match preprocessSingleParquetStationYear vars root stationId year env logger with
    | .error e => .error e
    | .ok (lg, counts) =>
      parquetStationLoop vars root stationId rest lg (inv ++ foldNonzero year counts)

/-- Source function `_preprocess_single_parquet_station` (lines 125–146): the
per-station YearSource task.  Each year carries its own environment.  Returns
the picklable logging stack and `(station_id, inv_by_var)`. -/
def preprocessSingleParquetStation (vars : List String) (root stationId : String)
    (tasks : List (Nat × ParquetYearEnv)) :
    Except Unit ((String × List Msg) × String × List ((String × String) × Nat)) :=
  match parquetStationLoop vars root stationId tasks (LoggingStack.mk stationId []) [] with
  | .error e => .error e
  | .ok (lg, inv) =>
    .ok ((lg.info "Task completed for station %s (`parquet` version)." [stationId]).picklable,
      stationId, inv)

/-- Characterization of when a `parquet` station-year run raises an uncaught
exception: the file exists but `pd.read_parquet` raises (line 71, outside every
`try`), or the first datetime parse raises `ValueError` and the mixed-format
fallback parse raises in turn (line 77, inside the handler). -/
def yearRaises (env : ParquetYearEnv) : Bool :=
  env.fileExists &&
    (!env.readParquetOk || decide (env.dtParse = DtParse.valueErrorFallback false))

/-! ## StationSource task (`_preprocess_single_psv_station`, lines 149–275) -/

/-- Station metadata fields, as captured from a StationSource row and as kept
in the station list: `(station_id, lat, lon, elevation, name)`.  Numeric
fields are `none` when NaN. -/
structure StationMeta where
  stationId : String
  lat : Option ℚ
  lon : Option ℚ
  elevation : Option ℚ
  stationName : String
deriving DecidableEq

/-- Sentinel elevation value replaced by NaN at capture (source line 221). -/
def elevationSentinel : ℚ := -999.9

/-- Metadata capture from the first row (source lines 216–225): the five
fields are taken verbatim from `df_my.iloc[0]`, except that an `Elevation`
equal to the `-999.9` sentinel is replaced by NaN (`none`). -/
def recordMetadata (row : StationMeta) : StationMeta :=
  if row.elevation = some elevationSentinel then { row with elevation := none }
  else row

/-- Environment of one `psv` station task: which guarded call sites succeed,
the first row of the year-filtered frame (`none` when `iloc[0]` raises), and
the per-year slices of the cleaned frame (`none` when exporting that year
raises). -/
structure PsvEnv where
  fileExists : Bool
  readCsvOk : Bool
  datetimeOk : Bool
  firstRow : Option StationMeta
  dropColumnsOk : Bool
  yearTables : List (Nat × Option Table)
  excText : String

/-- Per-year slice `df_my[df_my.index.year == int(year)]` together with the
export outcome: a year absent from the environment has an empty slice, whose
export succeeds with zero counts. -/
def yearTable (yt : List (Nat × Option Table)) (y : Nat) : Option Table :=
  match yt.find? (fun p => p.1 == y) with
  | some p => p.2
  | none => some []

/-- Abort message of the per-year `psv` export handler (source line 263). -/
def abortPsvYearMsg : String :=
  "Abort `psv` preprocessing for (station_id, year) = (%s, %i)."

/-- Abort message of the whole-task `psv` handlers (source lines 167–252). -/
def abortPsvMsg : String := "Abort task for station %s (`psv` version)."

/-- Inventory loop of the `psv` task (source lines 256–271): for each
requested year, slice and export; a failure is logged and skipped
(`continue`), a success folds its nonzero counts. -/
def psvYearLoop (vars : List String) (stationId : String) (years : List Nat)
    (env : PsvEnv) (logger : LoggingStack)
    (inv : List ((String × String) × Nat)) :
    LoggingStack × List ((String × String) × Nat) :=
  match years with
  | [] => (logger, inv)
  | year :: rest =>
    match yearTable env.yearTables year with
    | none =>
      psvYearLoop vars stationId rest env
        ((logger.error "Problem while exporting variables for year %i: %s"
            [toString year, env.excText]).error abortPsvYearMsg
            [stationId, toString year])
        inv
    | some t =>
      psvYearLoop vars stationId rest env
        (logger.debug "Variable export completed for (station_id, year) = (%s, %i)."
          [stationId, toString year])
        (inv ++ foldNonzero year (exportVariables vars t stationId year).1)

/-- Result triple of the `psv` task: picklable logging stack, optional
`(station_id, inv_by_var)`, optional captured metadata. -/
abbrev PsvResult :=
  (String × List Msg) × Option (String × List ((String × String) × Nat)) ×
    Option StationMeta

/-- Tail of the `psv` task from the column-cleaning phase on (source lines
233–275); `metadata` is whatever the metadata phase produced. -/
def psvAfterMetadata (vars : List String) (stationId : String) (years : List Nat)
    (env : PsvEnv) (logger : LoggingStack) (metadata : Option StationMeta) :
    PsvResult :=
  if !env.dropColumnsOk then
    (((logger.error "Problem while cleaning columns: %s" [env.excText]).error
        abortPsvMsg [stationId]).picklable, none, metadata)
  else
    let r := psvYearLoop vars stationId years env logger []
    (((r.1).info "Task completed for station %s (`psv` version)." [stationId]).picklable,
      some (stationId, r.2), metadata)

/-- Source function `_preprocess_single_psv_station` (lines 149–275): the
per-station StationSource task.  Every effectful phase is inside a
`try/except` in the source, so the embedding is a total function — no
exception can escape to the orchestrator. -/
def preprocessSinglePsvStation (vars : List String) (root stationId : String)
    (years : List Nat) (returnMetadata : Bool) (env : PsvEnv) : PsvResult :=
  let logger := LoggingStack.mk stationId []
  if !env.fileExists then
    (((logger.error "File %s not found." [ghcnhFileByStation root stationId]).error
        abortPsvMsg [stationId]).picklable, none, none)
  else if !env.readCsvOk then
    (((logger.error "Problem while parsing dtypes: %s" [env.excText]).error
        abortPsvMsg [stationId]).picklable, none, none)
  else if !env.datetimeOk then
    (((logger.error "Problem while parsing datetime: %s" [env.excText]).error
        abortPsvMsg [stationId]).picklable, none, none)
  else if returnMetadata then
    match env.firstRow with
    | none =>
      (((logger.error "Problem while recording metadata: %s" [env.excText]).error
          abortPsvMsg [stationId]).picklable, none, none)
    | some row =>
      psvAfterMetadata vars stationId years env
        (logger.debug "Recorded metadata." []) (some (recordMetadata row))
  else
    psvAfterMetadata vars stationId years env logger none

/-- Characterization of the `psv` failure modes that abort the task before the
inventory is built (and hence return a null inventory). -/
def psvFailsBeforeInventory (returnMetadata : Bool) (env : PsvEnv) : Bool :=
  !env.fileExists || !env.readCsvOk || !env.datetimeOk ||
    (returnMetadata && env.firstRow.isNone) || !env.dropColumnsOk

/-! ## psv dtype coercion (source lines 170–192) -/

/-- Pandas dtype assigned to a column before `read_csv`. -/
inductive Dtype
  | str
  | float
deriving DecidableEq

/-- Dtype that the comprehension at source lines 172–185 assigns to a
variable's value column: `str` when the name starts with `"pres_wx"`, or has
the length of `"sky_cover_1"` and starts with `"sky_cover"`, or is
`"remarks"`; `float` otherwise. -/
def colDtype (var : String) : Dtype :=
  if var.take 7 = "pres_wx"
      ∨ (var.length = 11 ∧ var.take 9 = "sky_cover")
      ∨ var = "remarks"
  then .str else .float

/-- Dtype assigned to every attribute column `f"{var}{attr}"` by the update at
source lines 187–192: always `str`. -/
def attrColDtype : Dtype := .str

/-- Modelled from the spec: the coercion rule as §4.1 words it
("weather-phenomenon and sky-cover codes to text, all others to floating
point"), the two families read structurally as in the code: weather-phenomenon
columns start with `"pres_wx"`, sky-cover code columns are the length-11 names
starting with `"sky_cover"`.  Defined only to compare the code's rule against
the spec's. -/
def specColDtype (var : String) : Dtype :=
  if var.take 7 = "pres_wx" ∨ (var.length = 11 ∧ var.take 9 = "sky_cover")
  then .str else .float

/-! ## Step-2 inventory reconciliation (source lines 460–479) -/

/-- Semantics of `existing.combine_first(update)` on per-variable inventory
tables keyed by `(station_id, year)`: the persisted count at a key is the
existing (step-1, YearSource) one when present, and the update (step-2,
StationSource) one otherwise.  Counts are never null, so pandas'
fill-nulls-from-other semantics reduces to this priority rule. -/
def combineFirst (existing update : (String × String) → Option Nat) :
    (String × String) → Option Nat :=
  fun k =>
    match existing k with
    | some c => some c
    | none => update k

/-- Levels of the `log` calls issued by the step-2 inventory export block
(source lines 460–479): a single `log.info` after the per-variable inventories
are updated — in particular, no `warning` call anywhere in the block. -/
def step2InventoryLogLevels : List String := ["info"]

/-! ## Step-2 station list reconciliation (source lines 417–442) -/

/-- Step-2 station-list update: keep the previously-known stations whose ids
are in this run's inventory scope (`stations.index.isin(...)`, line 421), then
append one row per non-null captured metadata tuple
(`for md in metadata if md`, lines 423–439). -/
def step2StationList (existing : List StationMeta) (scope : List String)
    (metadata : List (Option StationMeta)) : List StationMeta :=
  existing.filter (fun s => scope.contains s.stationId) ++ metadata.filterMap id

lemma isEmptyFalseIff {α : Type} (l : List α) : l.isEmpty = false ↔ l ≠ [] := by
  cases l <;> simp

lemma LoggingStack.appendAll_messages (s : LoggingStack) (ms : List Msg) :
    (s.appendAll ms).messages = s.messages ++ ms ∧ (s.appendAll ms).name = s.name := by
  induction ms generalizing s with
  | nil => simp [appendAll]
  | cons m rest ih =>
    have h := ih (s.append m.1 m.2.1 m.2.2)
    simp only [appendAll, List.foldl_cons] at h ⊢
    rcases h with ⟨h1, h2⟩
    constructor
    · rw [h1]; simp [LoggingStack.append]
    · rw [h2]; rfl

/-- C4 — For every DeferredLogBuffer and every sequence of messages appended
via its severity methods, `flush(logger)` emits the messages to the logger in
exact FIFO (append) order, each message prefixed with the buffer's owner id. -/
theorem c4_flush_fifo_owner_tagged (name : String) (ms : List Msg) :
    ((LoggingStack.mk name []).appendAll ms).flushEmits =
      ms.map (fun m => ⟨m.1.toLower, "[" ++ name ++ "] " ++ m.2.1, m.2.2⟩) := by
  have h := LoggingStack.appendAll_messages (LoggingStack.mk name []) ms
  rcases h with ⟨h1, h2⟩
  simp only [LoggingStack.flushEmits, h1, h2]
  rfl

/-- C3 — For every (station_id, variable_id, year), a partition file is
written iff the variable's table (value column plus attribute columns, rows
empty across all of them dropped) is non-empty, and an inventory entry for the
key is folded iff its row count is nonzero; zero counts appear in the
partitioner's returned count map but are never folded into the inventory. -/
theorem c3_partition_iff_nonzero (vars : List String) (t : Table)
    (stationId : String) (year : Nat) :
    (∀ v, (stationId, year, v) ∈ (exportVariables vars t stationId year).2 ↔
      (v ∈ vars ∧ (dropAllNa (tableRows t v)).length ≠ 0)) ∧
    (∀ v ystr c,
      ((v, ystr), c) ∈ foldNonzero year (exportVariables vars t stationId year).1 ↔
      (v ∈ vars ∧ ystr = toString year ∧
        c = (dropAllNa (tableRows t v)).length ∧ c ≠ 0)) := by
  constructor
  · intro v
    constructor
    · intro hmem
      simp only [exportVariables, List.mem_map, List.mem_filter] at hmem
      rcases hmem with ⟨v', ⟨hv', hne⟩, heq⟩
      simp only [Prod.mk.injEq] at heq
      rcases heq with ⟨-, -, rfl⟩
      rw [Bool.not_eq_true', isEmptyFalseIff] at hne
      exact ⟨hv', fun hlen => hne (List.length_eq_zero.mp hlen)⟩
    · rintro ⟨hv, hne⟩
      simp only [exportVariables, List.mem_map, List.mem_filter]
      refine ⟨v, ⟨hv, ?_⟩, rfl⟩
      rw [Bool.not_eq_true', isEmptyFalseIff]
      intro hnil
      exact hne (by rw [hnil]; rfl)
  · intro v ystr c
    constructor
    · intro hmem
      simp only [foldNonzero, exportVariables, List.mem_map, List.mem_filter] at hmem
      rcases hmem with ⟨⟨v', c'⟩, ⟨⟨a, ha, heqa⟩, hc'⟩, heq⟩
      simp only [Prod.mk.injEq] at heqa heq
      rcases heqa with ⟨rfl, rfl⟩
      rcases heq with ⟨⟨rfl, rfl⟩, rfl⟩
      simp only [bne_iff_ne, ne_eq] at hc'
      exact ⟨ha, rfl, rfl, hc'⟩
    · rintro ⟨hv, rfl, rfl, hc⟩
      simp only [foldNonzero, exportVariables, List.mem_map, List.mem_filter]
      refine ⟨(v, (dropAllNa (tableRows t v)).length), ⟨⟨v, hv, rfl⟩, ?_⟩, rfl⟩
      simpa [bne_iff_ne] using hc

/-- C5 — Reconstructing a buffer from the `(owner_id, messages)` tuple returned
by `picklable()` yields a buffer with the same owner and messages, hence whose
flush emits exactly the same sequence of owner-tagged records. -/
theorem c5_pickle_round_trip (s : LoggingStack) :
    LoggingStack.ofPickle s.picklable = s ∧
    (LoggingStack.ofPickle s.picklable).flushEmits = s.flushEmits := by
  constructor <;> rfl

lemma parquetYear_ok_iff (vars : List String) (root stationId : String)
    (year : Nat) (env : ParquetYearEnv) (logger : LoggingStack) :
    (∃ r, preprocessSingleParquetStationYear vars root stationId year env logger = .ok r)
      ↔ yearRaises env = false := by
  obtain ⟨fe, ro, dt, dc, er, tb, ex⟩ := env
  rcases dt with _ | fb | _ <;> try cases fb
  all_goals
    (cases fe <;> cases ro <;> cases dc <;> cases er <;>
      simp [preprocessSingleParquetStationYear, yearRaises])

lemma parquetLoop_ok_iff (vars : List String) (root stationId : String)
    (tasks : List (Nat × ParquetYearEnv)) (logger : LoggingStack)
    (inv : List ((String × String) × Nat)) :
    (∃ r, parquetStationLoop vars root stationId tasks logger inv = .ok r)
      ↔ ∀ p ∈ tasks, yearRaises p.2 = false := by
  induction tasks generalizing logger inv with
  | nil => simp [parquetStationLoop]
  | cons hd rest ih =>
    obtain ⟨year, env⟩ := hd
    cases hYF : preprocessSingleParquetStationYear vars root stationId year env logger with
    | error e =>
      have hRaise : yearRaises env = true := by
        cases hY : yearRaises env
        · rcases (parquetYear_ok_iff vars root stationId year env logger).mpr hY with ⟨r, hr⟩
          rw [hYF] at hr
          exact Except.noConfusion hr
        · rfl
      constructor
      · rintro ⟨r, hr⟩
        simp only [parquetStationLoop, hYF] at hr
        exact Except.noConfusion hr
      · intro h
        have h2 := h (year, env) (List.mem_cons_self _ _)
        rw [hRaise] at h2
        exact Bool.noConfusion h2
    | ok pr =>
      obtain ⟨lg, counts⟩ := pr
      have hOk : yearRaises env = false :=
        (parquetYear_ok_iff vars root stationId year env logger).mp ⟨_, hYF⟩
      constructor
      · rintro ⟨r, hr⟩
        simp only [parquetStationLoop, hYF] at hr
        intro p hp
        rcases List.mem_cons.mp hp with heq | hmem
        · rw [heq]; exact hOk
        · exact (ih lg (inv ++ foldNonzero year counts)).mp ⟨r, hr⟩ p hmem
      · intro h
        rcases (ih lg (inv ++ foldNonzero year counts)).mpr
          (fun p hp => h p (List.mem_cons_of_mem _ hp)) with ⟨r, hr⟩
        refine ⟨r, ?_⟩
        simp only [parquetStationLoop, hYF]
        exact hr

/-- C2 counterexample — a `parquet` station task whose file exists but whose
`pd.read_parquet` call raises lets the exception propagate to the
orchestrator's compute/join (`pd.read_parquet` at line 71 is outside every
`try`), contradicting the claim that task errors never propagate. -/
theorem c2_exception_propagates_cex :
    preprocessSingleParquetStation ["precipitation"] "/r" "S1"
      [(2020, ⟨true, false, DtParse.ok, true, false, [], "boom"⟩)] = .error () := rfl

/-- C2 amended — a `parquet` station task returns (rather than raises) exactly
when no year run hits an unguarded call site: errors are captured in the
DeferredLogBuffer for missing files, non-ValueError datetime failures, column
cleaning and export failures, but an exception from `pd.read_parquet` itself,
or from the mixed-format datetime fallback raising inside the `except
ValueError` handler, propagates.  (The `psv` task has every effectful phase
inside `try/except` and is embedded as a total function.) -/
theorem c2_task_exception_boundary_amended (vars : List String)
    (root stationId : String) (tasks : List (Nat × ParquetYearEnv)) :
    (∃ r, preprocessSingleParquetStation vars root stationId tasks = .ok r)
      ↔ ∀ p ∈ tasks, yearRaises p.2 = false := by
  unfold preprocessSingleParquetStation
  cases hL : parquetStationLoop vars root stationId tasks (LoggingStack.mk stationId []) [] with
  | error e =>
    constructor
    · rintro ⟨r, hr⟩
      exact Except.noConfusion hr
    · intro h
      rcases (parquetLoop_ok_iff vars root stationId tasks
        (LoggingStack.mk stationId []) []).mpr h with ⟨r, hr⟩
      rw [hL] at hr
      exact Except.noConfusion hr
  | ok pr =>
    constructor
    · intro _
      exact (parquetLoop_ok_iff vars root stationId tasks
        (LoggingStack.mk stationId []) []).mp ⟨pr, hL⟩
    · intro _
      exact ⟨_, rfl⟩

/-- C6 — For every station_id and requested years, if the raw input file for a
source does not exist, the read operation does not raise: the `parquet`
station-year run returns an empty count dict, the `psv` task returns null
partial results, and in both cases exactly two error messages naming the file
and aborting the task are recorded in the task-owned buffer (hence attributed
to that station on flush), isolating the failure to that single task. -/
theorem c6_missing_input_isolated (vars : List String) (root stationId : String)
    (year : Nat) (years : List Nat) (rm : Bool)
    (envP : ParquetYearEnv) (envS : PsvEnv)
    (hP : envP.fileExists = false) (hS : envS.fileExists = false) :
    preprocessSingleParquetStationYear vars root stationId year envP
        (LoggingStack.mk stationId []) =
      .ok (LoggingStack.mk stationId
        [("error", "File %s not found.", [ghcnhFileByYear root stationId year]),
         ("error", abortParquetMsg, [stationId, toString year])], []) ∧
    preprocessSinglePsvStation vars root stationId years rm envS =
      ((stationId,
        [("error", "File %s not found.", [ghcnhFileByStation root stationId]),
         ("error", abortPsvMsg, [stationId])]), none, none) := by
  constructor
  · simp [preprocessSingleParquetStationYear, hP, LoggingStack.error, LoggingStack.append]
  · simp [preprocessSinglePsvStation, hS, LoggingStack.error, LoggingStack.append,
      LoggingStack.picklable]

/-- Witness for C6 at a concrete missing-file environment. -/
theorem c6_missing_input_isolated_witness :
    preprocessSingleParquetStationYear ["precipitation"] "/r" "S1" 2020
        ⟨false, true, DtParse.ok, true, false, [], "e"⟩ (LoggingStack.mk "S1" []) =
      .ok (LoggingStack.mk "S1"
        [("error", "File %s not found.", [ghcnhFileByYear "/r" "S1" 2020]),
         ("error", abortParquetMsg, ["S1", toString 2020])], []) ∧
    preprocessSinglePsvStation ["precipitation"] "/r" "S1" [2020] true
        ⟨false, true, true, none, true, [], "e"⟩ =
      (("S1",
        [("error", "File %s not found.", [ghcnhFileByStation "/r" "S1"]),
         ("error", abortPsvMsg, ["S1"])]), none, none) :=
  c6_missing_input_isolated ["precipitation"] "/r" "S1" 2020 [2020] true
    ⟨false, true, DtParse.ok, true, false, [], "e"⟩
    ⟨false, true, true, none, true, [], "e"⟩ rfl rfl

/-- C7 counterexample — a `psv` task whose input file is missing returns a
TaskResult whose partial-inventory field is null (`None`), not an empty
inventory, contradicting the claim that partial fields are never null. -/
theorem c7_psv_null_inventory_cex :
    (preprocessSinglePsvStation ["precipitation"] "/r" "S1" [2020] true
      ⟨false, true, true, none, true, [], "e"⟩).2.1 = none := rfl

/-- C7 amended — the `psv` task's partial-inventory field is null exactly when
a pre-inventory phase fails (missing file, dtype/read failure, datetime
failure, metadata capture failure when metadata is requested, or
column-cleaning failure); on those failures the field is `None` rather than an
empty dict (the step-2 orchestrator filters the null inventories before
folding), and otherwise it is always the non-null `(station_id, inventory)`
pair.  The `parquet` task's fields are never null (empty dict on failure). -/
theorem c7_taskresult_fields_amended (vars : List String) (root stationId : String)
    (years : List Nat) (rm : Bool) (env : PsvEnv) :
    (preprocessSinglePsvStation vars root stationId years rm env).2.1 = none ↔
      psvFailsBeforeInventory rm env = true := by
  obtain ⟨fe, rc, dt, fr, dc, yt, ex⟩ := env
  cases fe <;> cases rc <;> cases dt <;> cases dc <;> cases rm <;>
    rcases fr with _ | row <;>
    simp [preprocessSinglePsvStation, psvAfterMetadata, psvFailsBeforeInventory]

/-- C10 — When a StationSource task captures station metadata, an Elevation
equal to the sentinel −999.9 in the first raw row is replaced by null (NaN)
in the captured metadata, and all other fields are taken verbatim from the
first row. -/
theorem c10_elevation_sentinel_capture (vars : List String)
    (root stationId : String) (years : List Nat) (env : PsvEnv) (row : StationMeta)
    (h1 : env.fileExists = true) (h2 : env.readCsvOk = true)
    (h3 : env.datetimeOk = true) (h4 : env.firstRow = some row) :
    (preprocessSinglePsvStation vars root stationId years true env).2.2 =
      some { stationId := row.stationId, lat := row.lat, lon := row.lon,
             elevation := if row.elevation = some elevationSentinel then none
                          else row.elevation,
             stationName := row.stationName } := by
  obtain ⟨fe, rc, dt, fr, dc, yt, ex⟩ := env
  simp only at h1 h2 h3 h4
  subst h1; subst h2; subst h3; subst h4
  cases dc <;>
    simp [preprocessSinglePsvStation, psvAfterMetadata, recordMetadata] <;>
    rcases hE : row.elevation with _ | q <;>
    obtain ⟨sid, lat, lon, el, nm⟩ := row <;>
    simp_all <;>
    split <;> simp_all

/-- Witness for C10 at a concrete first row carrying the −999.9 sentinel. -/
theorem c10_elevation_sentinel_capture_witness :
    (preprocessSinglePsvStation ["precipitation"] "/r" "S1" [2020] true
      ⟨true, true, true,
       some ⟨"S1", some 10, some 20, some (-999.9), "STATION ONE"⟩,
       true, [], "e"⟩).2.2 =
      some ⟨"S1", some 10, some 20, none, "STATION ONE"⟩ := by
  have h := c10_elevation_sentinel_capture ["precipitation"] "/r" "S1" [2020]
    ⟨true, true, true,
     some ⟨"S1", some 10, some 20, some (-999.9), "STATION ONE"⟩,
     true, [], "e"⟩
    ⟨"S1", some 10, some 20, some (-999.9), "STATION ONE"⟩ rfl rfl rfl rfl
  simpa [elevationSentinel] using h

lemma psvYearLoop_levels (vars : List String) (stationId : String)
    (years : List Nat) (env : PsvEnv) (logger : LoggingStack)
    (inv : List ((String × String) × Nat)) :
    ∀ m ∈ (psvYearLoop vars stationId years env logger inv).1.messages,
      m.1 = "error" ∨ m.1 = "debug" ∨ m ∈ logger.messages := by
  induction years generalizing logger inv with
  | nil =>
    intro m hm
    exact Or.inr (Or.inr hm)
  | cons y rest ih =>
    intro m hm
    simp only [psvYearLoop] at hm
    cases hYT : yearTable env.yearTables y with
    | none =>
      rw [hYT] at hm
      rcases ih _ inv m hm with h | h | h
      · exact Or.inl h
      · exact Or.inr (Or.inl h)
      · simp only [LoggingStack.error, LoggingStack.append, List.mem_append,
          List.mem_singleton] at h
        rcases h with (h | rfl) | rfl
        · exact Or.inr (Or.inr h)
        · exact Or.inl rfl
        · exact Or.inl rfl
    | some t =>
      rw [hYT] at hm
      rcases ih _ (inv ++ foldNonzero y (exportVariables vars t stationId y).1) m hm
        with h | h | h
      · exact Or.inl h
      · exact Or.inr (Or.inl h)
      · simp only [LoggingStack.debug, LoggingStack.append, List.mem_append,
          List.mem_singleton] at h
        rcases h with h | rfl
        · exact Or.inr (Or.inr h)
        · exact Or.inr (Or.inl rfl)

lemma psvAfterMetadata_no_warning (vars : List String) (stationId : String)
    (years : List Nat) (env : PsvEnv) (logger : LoggingStack)
    (metadata : Option StationMeta)
    (hlog : ∀ m ∈ logger.messages, m.1 ≠ "warning") :
    ∀ m ∈ (psvAfterMetadata vars stationId years env logger metadata).1.2,
      m.1 ≠ "warning" := by
  intro m hm
  unfold psvAfterMetadata at hm
  cases hdc : env.dropColumnsOk with
  | false =>
    simp [hdc, LoggingStack.error, LoggingStack.append, LoggingStack.picklable] at hm
    rcases hm with h | rfl | rfl
    · exact hlog m h
    · intro hcon; simp at hcon
    · intro hcon; simp at hcon
  | true =>
    simp [hdc, LoggingStack.info, LoggingStack.append, LoggingStack.picklable] at hm
    rcases hm with h | rfl
    · rcases psvYearLoop_levels vars stationId years env logger [] m h with h2 | h2 | h2
      · rw [h2]; decide
      · rw [h2]; decide
      · exact hlog m h2
    · intro hcon; simp at hcon

lemma psvTask_no_warning (vars : List String) (root stationId : String)
    (years : List Nat) (rm : Bool) (env : PsvEnv) :
    ∀ m ∈ (preprocessSinglePsvStation vars root stationId years rm env).1.2,
      m.1 ≠ "warning" := by
  intro m hm
  unfold preprocessSinglePsvStation at hm
  cases hfe : env.fileExists with
  | false =>
    simp [hfe, LoggingStack.error, LoggingStack.append, LoggingStack.picklable] at hm
    rcases hm with rfl | rfl
    · intro hcon; simp at hcon
    · intro hcon; simp at hcon
  | true =>
  cases hrc : env.readCsvOk with
  | false =>
    simp [hfe, hrc, LoggingStack.error, LoggingStack.append,
      LoggingStack.picklable] at hm
    rcases hm with rfl | rfl
    · intro hcon; simp at hcon
    · intro hcon; simp at hcon
  | true =>
  cases hdt : env.datetimeOk with
  | false =>
    simp [hfe, hrc, hdt, LoggingStack.error, LoggingStack.append,
      LoggingStack.picklable] at hm
    rcases hm with rfl | rfl
    · intro hcon; simp at hcon
    · intro hcon; simp at hcon
  | true =>
  cases rm with
  | false =>
    simp only [hfe, hrc, hdt, Bool.not_true, Bool.false_eq_true, if_false] at hm
    exact psvAfterMetadata_no_warning vars stationId years env
      (LoggingStack.mk stationId []) none (by intro m2 hm2; cases hm2) m hm
  | true =>
    cases hfr : env.firstRow with
    | none =>
      simp [hfe, hrc, hdt, hfr, LoggingStack.error, LoggingStack.append,
        LoggingStack.picklable] at hm
      rcases hm with rfl | rfl
      · intro hcon; simp at hcon
      · intro hcon; simp at hcon
    | some row =>
      simp only [hfe, hrc, hdt, hfr, Bool.not_true, Bool.false_eq_true, if_false,
        if_true] at hm
      refine psvAfterMetadata_no_warning vars stationId years env
        ((LoggingStack.mk stationId []).debug "Recorded metadata." [])
        (some (recordMetadata row)) ?_ m hm
      intro m2 hm2
      simp [LoggingStack.debug, LoggingStack.append] at hm2
      rw [hm2]
      decide

/-- C1 counterexample — for the key ("AB0001", "2020") reported by both the
step-1 (YearSource) inventory with count 5 and the step-2 (StationSource)
update with count 7, the persisted reconciled count is the YearSource value 5,
but the step-2 inventory export block logs zero warnings (its only `log` call
is one `info`), not the exactly-one conflict warning the claim requires. -/
theorem c1_conflict_warning_cex :
    combineFirst
        (fun k => if k = ("AB0001", "2020") then some 5 else none)
        (fun k => if k = ("AB0001", "2020") then some 7 else none)
        ("AB0001", "2020") = some 5 ∧
    step2InventoryLogLevels.count "warning" = 0 := by
  constructor
  · simp [combineFirst]
  · rfl

/-- C1 amended — for every inventory key reported by both sources with unequal
counts, the reconciled per-variable inventory persisted after step 2 contains
the YearSource count (`combine_first` gives the existing step-1 table
priority), but no conflict warning is logged: the step-2 inventory export
block issues only an `info` record, and no `psv` task ever buffers a
warning-level message. -/
theorem c1_reconciliation_amended
    (existing update : (String × String) → Option Nat)
    (k : String × String) (a b : Nat)
    (hE : existing k = some a) (_hU : update k = some b) (_hNe : a ≠ b) :
    combineFirst existing update k = some a ∧
    step2InventoryLogLevels.count "warning" = 0 ∧
    (∀ (vars : List String) (root stationId : String) (years : List Nat)
      (rm : Bool) (env : PsvEnv),
      ∀ m ∈ (preprocessSinglePsvStation vars root stationId years rm env).1.2,
        m.1 ≠ "warning") := by
  refine ⟨?_, rfl, psvTask_no_warning⟩
  unfold combineFirst
  rw [hE]

/-- Witness for C1 (amended) at concrete conflicting counts 24 vs 20. -/
theorem c1_reconciliation_amended_witness :
    combineFirst
        (fun k => if k = ("CD0002", "1999") then some 24 else none)
        (fun k => if k = ("CD0002", "1999") then some 20 else none)
        ("CD0002", "1999") = some 24 ∧
    step2InventoryLogLevels.count "warning" = 0 :=
  ⟨(c1_reconciliation_amended _ _ ("CD0002", "1999") 24 20
      (by simp) (by simp) (by decide)).1,
   (c1_reconciliation_amended
      (fun k => if k = ("CD0002", "1999") then some 24 else none)
      (fun k => if k = ("CD0002", "1999") then some 20 else none)
      ("CD0002", "1999") 24 20 (by simp) (by simp) (by decide)).2.1⟩

/-- C8 — After step 2, the emitted station list contains exactly the
previously-known stations whose ids are in this run's inventory scope
(out-of-scope stations are dropped) plus the stations whose metadata a
StationSource task captured and returned non-null. -/
theorem c8_station_list_scope (existing : List StationMeta) (scope : List String)
    (metadata : List (Option StationMeta)) (s : StationMeta) :
    s ∈ step2StationList existing scope metadata ↔
      ((s ∈ existing ∧ s.stationId ∈ scope) ∨ some s ∈ metadata) := by
  simp [step2StationList, List.mem_filter, List.mem_filterMap, List.mem_append]

/-- C9 counterexample — the `psv` dtype map coerces the `remarks` variable
column to text (the comprehension's condition lists it explicitly), while the
claim's rule (weather-phenomenon and sky-cover codes to text, all others to
floating point) assigns it floating point. -/
theorem c9_remarks_dtype_cex :
    colDtype "remarks" = Dtype.str ∧ specColDtype "remarks" = Dtype.float := by
  constructor <;> decide

/-- C9 amended — before parsing a StationSource file, every variable column is
coerced to a fixed dtype: weather-phenomenon columns (name starting with
`pres_wx`), sky-cover code columns (length-11 names starting with
`sky_cover`), and additionally the free-text `remarks` column are coerced to
text; all other variable columns to floating point; and every attribute
column to text. -/
theorem c9_dtype_coercion_amended (var : String) :
    colDtype var = (if var = "remarks" then Dtype.str else specColDtype var) ∧
    attrColDtype = Dtype.str := by
  refine ⟨?_, rfl⟩
  by_cases h : var = "remarks"
  · subst h
    simp [colDtype, specColDtype]
  · simp only [colDtype, specColDtype, h, if_false, or_false]

end Pyseasters
